import Mathlib

/-!
Shallow embedding of the BAJAJ API test script (`src/a.py`) and proofs of
its specification claims.

The script consists of two unique-data generators
(`generate_very_unique_phone_number`, `generate_very_unique_email`), a
request harness (`send_request`) and three scripted test cases executed
top to bottom.  Randomness (uuid4) and the clock are modelled as explicit
natural-number inputs; the network is modelled as an explicit transport
outcome (a response, or a raised RequestException).  Python prints become
an explicit log; Python exceptions and `assert`/`exit` become an error
component threaded through a small state monad.
-/

/-! ### Generic string / digit machinery -/

/-- Does `pat` occur as a prefix of `l`?  (Models Python string prefix comparison.) -/
def prefixMatch : List Char → List Char → Bool
  | [], _ => true
  | _ :: _, [] => false
  | c :: cs, d :: ds => c == d && prefixMatch cs ds

/-- Does `pat` occur as a contiguous sublist of `l`?  Helper for `strContains`. -/
def subMatch (pat : List Char) : List Char → Bool
  | [] => prefixMatch pat []
  | c :: rest => prefixMatch pat (c :: rest) || subMatch pat rest

/-- Python's `pat in s` substring test on strings. -/
def strContains (s pat : String) : Bool := subMatch pat.data s.data

/-- Python truthiness of a string / bytes value: nonempty. -/
def strNonempty (s : String) : Bool := !s.data.isEmpty

/-- Little-endian decimal digits of `n`, with explicit fuel so that the
definition is structural (and hence kernel-evaluable). -/
def toDecAux : Nat → Nat → List Nat
  | 0, _ => []
  | _ + 1, 0 => []
  | fuel + 1, n + 1 => ((n + 1) % 10) :: toDecAux fuel ((n + 1) / 10)

/-- The digit list of Python's `str(n)` for a nonnegative integer `n`,
most significant digit first (`str(0) = "0"`). -/
def pyStrNat (n : Nat) : List Nat := if n = 0 then [0] else (toDecAux n n).reverse

/-- The character of a decimal digit. -/
def decChar (d : Nat) : Char := Char.ofNat (48 + d)

/-- Python's `str(n)` for a nonnegative integer. -/
def natDecStr (n : Nat) : String := String.mk ((pyStrNat n).map decChar)

/-- Python's `int` applied to a most-significant-first decimal digit list. -/
def pyIntOfDigits (l : List Nat) : Nat := l.foldl (fun a d => 10 * a + d) 0

/-- Python's `int(str(n)[:10])` for a nonnegative integer `n`. -/
def truncate10 (n : Nat) : Nat := pyIntOfDigits ((pyStrNat n).take 10)

/-- Lowercase hex character of a digit (matching Python's `uuid.hex` alphabet). -/
def hexChar (d : Nat) : Char := if d < 10 then Char.ofNat (48 + d) else Char.ofNat (87 + d)

/-- The `k`-character zero-padded lowercase hex rendering of `n % 16^k`,
most significant digit first. -/
def hexN : Nat → Nat → List Char
  | 0, _ => []
  | k + 1, n => hexN k (n / 16) ++ [hexChar (n % 16)]

/-- Python's `uuid.UUID.hex`: the 32-character zero-padded lowercase hex
rendering of the 128-bit uuid value. -/
def uuidHex (u : Nat) : String := String.mk (hexN 32 u)

/-- Numeric value of a lowercase hex character. -/
def hexVal (c : Char) : Nat := if c.toNat ≤ 57 then c.toNat - 48 else c.toNat - 87

/-- Parse a hex character list back to a number (most significant first). -/
def unhex (l : List Char) : Nat := l.foldl (fun a c => 16 * a + hexVal c) 0

/-- Parse a decimal character list back to a number (most significant first). -/
def parseDec (l : List Char) : Nat := l.foldl (fun a c => 10 * a + (c.toNat - 48)) 0

/-! ### The unique data generators (`src/a.py` lines 42-61)

`uuid.uuid4().hex` is a 32-hex-character rendering of a random 128-bit
value `u`; `int(..., 16)` recovers `u`.  `int(time.time() * 1000000)` is a
microsecond timestamp `t`.  Both are passed in explicitly. -/

/-- `generate_very_unique_phone_number` of `src/a.py` (lines 42-56), with the
uuid value `u` and the microsecond timestamp `t` as explicit inputs. -/
def generate_very_unique_phone_number (u t : Nat) : Nat :=
  let base_num := 9000000000
  let unique_part := u
  let timestamp_part := t
  let suffix_part := (unique_part + timestamp_part) % 1000000000
  let phone_number := base_num + suffix_part
  truncate10 phone_number

/-- `generate_very_unique_email` of `src/a.py` (lines 58-61), with the uuid
value `u` and the microsecond timestamp `t` as explicit inputs. -/
def generate_very_unique_email (u t : Nat) : String :=
  "testuser_" ++ uuidHex u ++ "_" ++ natDecStr t ++ "@example.com"

/-- Number of occurrences of a character in a string. -/
def charCount (s : String) (c : Char) : Nat := s.data.count c

/-! ### JSON values

A JSON value model for request and response bodies.  Request bodies built
by the script are objects of strings and numbers; responses may be any
value (or raw non-JSON text, see `ResponseBody`). -/

inductive JVal where
  | str (s : String)
  | num (n : Nat)
  | bool (b : Bool)
  | null
  | arr (elems : List JVal)
  | obj (fields : List (String × JVal))

mutual

/-- Serialization of a JSON value (models `json.dumps`). -/
def renderJ : JVal → String
  | JVal.str s => "\"" ++ s ++ "\""
  | JVal.num n => natDecStr n
  | JVal.bool b => if b then "true" else "false"
  | JVal.null => "null"
  | JVal.arr es => "[" ++ renderElems es ++ "]"
  | JVal.obj fs => "\x7b" ++ renderFields fs ++ "\x7d"

def renderElems : List JVal → String
  | [] => ""
  | [j] => renderJ j
  | j :: j2 :: rest => renderJ j ++ ", " ++ renderElems (j2 :: rest)

def renderFields : List (String × JVal) → String
  | [] => ""
  | [(k, v)] => "\"" ++ k ++ "\": " ++ renderJ v
  | (k, v) :: p :: rest => "\"" ++ k ++ "\": " ++ renderJ v ++ ", " ++ renderFields (p :: rest)

end

/-- First binding of a key in a JSON object field list. -/
def lookupField : List (String × JVal) → String → Option JVal
  | [], _ => none
  | (k, v) :: rest, key => if k == key then some v else lookupField rest key

/-! ### Exceptions, HTTP model, script state

`Halt` collects everything that can abort normal control flow in the
script: the Python exceptions that occur in it (`requests` transport
exceptions, `json.JSONDecodeError`, `AttributeError`) plus `assert`
failure and the explicit `exit(...)` call. -/

inductive Halt where
  | requestExc (msg : String)
  | jsonDecodeErr
  | attrErr
  | assertFail (msg : String)
  | exitCall (msg : String)
  deriving DecidableEq

/-- A response body: either text that parses as the JSON value `j`, or raw
text that is not valid JSON. -/
inductive ResponseBody where
  | jsonBody (j : JVal)
  | rawBody (s : String)

/-- A received HTTP response (`requests.Response`). -/
structure HTTPResponse where
  status_code : Nat
  body : ResponseBody

/-- `response.text` (and, up to encoding, `response.content`). -/
def HTTPResponse.text (r : HTTPResponse) : String :=
  match r.body with
  | ResponseBody.jsonBody j => renderJ j
  | ResponseBody.rawBody s => s

/-- `response.content`, modelled as the body text. -/
def HTTPResponse.content (r : HTTPResponse) : String := r.text

/-- Python truthiness of a `requests.Response`: `Response.__bool__` returns
`self.ok`, which is `False` exactly for 4xx/5xx status codes.  Notably a
status-400 response is falsy. -/
def HTTPResponse.toBool (r : HTTPResponse) : Bool :=
  !(decide (400 ≤ r.status_code ∧ r.status_code < 600))

/-- Outcome of one HTTP POST attempt: a response, or a raised
`requests.exceptions.RequestException` (connection error, timeout, ...)
carrying message `e`. -/
inductive TransportOutcome where
  | success (r : HTTPResponse)
  | failure (e : String)

/-- The response object the caller of `send_request` sees for an outcome. -/
def responseOf : TransportOutcome → Option HTTPResponse
  | TransportOutcome.success r => some r
  | TransportOutcome.failure _ => none

/-- One HTTP request as issued on the wire by `requests.post`. -/
structure IssuedRequest where
  url : String
  headers : List (String × String)
  body : String
  timeout : Nat

/-- Observable script state: ordered console log and ordered list of issued
HTTP requests. -/
structure SState where
  log : List String
  issued : List IssuedRequest

/-- The script monad: state passing plus an abort channel. -/
def SM (α : Type) := SState → SState × Except Halt α

def Mpure {α : Type} (a : α) : SM α := fun s => (s, Except.ok a)

def Mbind {α β : Type} (x : SM α) (f : α → SM β) : SM β := fun s =>
  match x s with
  | (s', Except.ok a) => f a s'
  | (s', Except.error e) => (s', Except.error e)

instance : Monad SM where
  pure := Mpure
  bind := Mbind

/-- `print(msg)`. -/
def pyPrint (msg : String) : SM Unit :=
  fun s => ({ s with log := s.log ++ [msg] }, Except.ok ())

/-- Raise / abort. -/
def throwHalt {α : Type} (h : Halt) : SM α := fun s => (s, Except.error h)

/-- `assert b, msg`. -/
def assertPy (b : Bool) (msg : String) : SM Unit :=
  fun s => (s, if b then Except.ok () else Except.error (Halt.assertFail msg))

/-- `assert ro is not None, msg` followed by use of the unwrapped response. -/
def assertSome (ro : Option HTTPResponse) (msg : String) : SM HTTPResponse :=
  fun s =>
    (s, match ro with
        | some r => Except.ok r
        | none => Except.error (Halt.assertFail msg))

/-- `try: x except ...:` — the handler decides which `Halt` values it
catches (returning `none` re-raises). -/
def pyTry {α : Type} (x : SM α) (handler : Halt → Option (SM α)) : SM α := fun s =>
  match x s with
  | (s', Except.ok a) => (s', Except.ok a)
  | (s', Except.error e) =>
    match handler e with
    | some y => y s'
    | none => (s', Except.error e)

/-! ### The request harness (`src/a.py` lines 6-38) -/

def BASE_URL : String := "https://automation.goview.me/create/user"

def ROLL_NUMBER : String := "2"

/-- `requests.post(BASE_URL, headers=headers, data=json.dumps(data), timeout=15)`:
records the issued request, then yields the response or raises the
transport exception. -/
def doPost (headers : List (String × String)) (body : String) (tmo : Nat)
    (o : TransportOutcome) : SM HTTPResponse := fun s =>
  ({ s with issued := s.issued ++ [⟨BASE_URL, headers, body, tmo⟩] },
   match o with
   | TransportOutcome.success r => Except.ok r
   | TransportOutcome.failure e => Except.error (Halt.requestExc e))

/-- `response.json()`: the parsed value, or a raised JSON decode error. -/
def HTTPResponse.jsonM (r : HTTPResponse) : SM JVal := fun s =>
  (s, match r.body with
      | ResponseBody.jsonBody j => Except.ok j
      | ResponseBody.rawBody _ => Except.error Halt.jsonDecodeErr)

/-- Python `d.get(key, default)`; raises `AttributeError` when the parsed
JSON value is not an object (a `dict`). -/
def pyDictGet (j : JVal) (key : String) (default : JVal) : SM JVal := fun s =>
  (s, match j with
      | JVal.obj fs => Except.ok ((lookupField fs key).getD default)
      | _ => Except.error Halt.attrErr)

/-- Python `v.lower()`; raises `AttributeError` when `v` is not a string. -/
def pyLower (j : JVal) : SM String := fun s =>
  (s, match j with
      | JVal.str t => Except.ok t.toLower
      | _ => Except.error Halt.attrErr)

/-- Rendering of a headers dict for the request log. -/
def renderHeaders (h : List (String × String)) : String :=
  String.intercalate ", " (h.map (fun p => p.1 ++ ": " ++ p.2))

/-- `send_request` of `src/a.py` (lines 9-38).  The transport outcome `o`
of the single `requests.post` call is an explicit input.  The outer
`try` catches exactly `requests.exceptions.RequestException`; the inner
`try` around the response-body logging catches exactly
`json.JSONDecodeError`. -/
def send_request (headers : List (String × String)) (data : JVal) (o : TransportOutcome) :
    SM (Option HTTPResponse) :=
  pyTry
    (do
      pyPrint "--- Sending Request ---"
      pyPrint ("Request URL: " ++ BASE_URL)
      pyPrint ("Request Headers: " ++ renderHeaders headers)
      pyPrint ("Request Data: " ++ renderJ data)
      let response ← doPost headers (renderJ data) 15 o
      pyPrint ("Response Status: " ++ natDecStr response.status_code)
      pyTry
        (do
          let response_body ←
            if strNonempty response.content then response.jsonM
            else Mpure (JVal.str "No Content")
          pyPrint ("Response Body: " ++ renderJ response_body))
        (fun e =>
          match e with
          | Halt.jsonDecodeErr =>
            some (pyPrint ("Response Body (Non-JSON): " ++ response.text))
          | _ => none)
      pyPrint "-----------------------"
      Mpure (some response))
    (fun e =>
      match e with
      | Halt.requestExc m =>
        some (do
          pyPrint "--- Request Failed ---"
          pyPrint ("Request failed due to exception: " ++ m)
          pyPrint "----------------------"
          Mpure none)
      | _ => none)

/-- The log lines `send_request` emits for the response body. -/
def srBodyLines (r : HTTPResponse) : List String :=
  match r.body with
  | ResponseBody.jsonBody j => ["Response Body: " ++ renderJ j]
  | ResponseBody.rawBody s =>
    if strNonempty s then ["Response Body (Non-JSON): " ++ s]
    else ["Response Body: " ++ renderJ (JVal.str "No Content")]

/-- The full log `send_request` emits for headers, data and outcome. -/
def srLog (headers : List (String × String)) (data : JVal) (o : TransportOutcome) :
    List String :=
  ["--- Sending Request ---", "Request URL: " ++ BASE_URL,
   "Request Headers: " ++ renderHeaders headers, "Request Data: " ++ renderJ data] ++
  match o with
  | TransportOutcome.failure e =>
    ["--- Request Failed ---", "Request failed due to exception: " ++ e,
     "----------------------"]
  | TransportOutcome.success r =>
    ("Response Status: " ++ natDecStr r.status_code) :: srBodyLines r ++
      ["-----------------------"]

/-- The single request `send_request` issues for given headers and data. -/
def mkReq (headers : List (String × String)) (data : JVal) : IssuedRequest :=
  ⟨BASE_URL, headers, renderJ data, 15⟩

/-! ### The scripted test cases (`src/a.py` lines 64-203)

Each call of `uuid.uuid4()` / `time.time()` in the script, and each
transport outcome, is an explicit field of `ScriptEnv`, in program order. -/

structure ScriptEnv where
  uuidPhone11 : Nat
  timePhone11 : Nat
  uuidEmail11 : Nat
  timeEmail11 : Nat
  uuidPhone21 : Nat
  timePhone21 : Nat
  uuidEmail21 : Nat
  timeEmail21 : Nat
  uuidPhoneSetup : Nat
  timePhoneSetup : Nat
  uuidEmailSetup : Nat
  timeEmailSetup : Nat
  uuidEmail31 : Nat
  timeEmail31 : Nat
  out11 : TransportOutcome
  out21 : TransportOutcome
  outSetup : TransportOutcome
  out31 : TransportOutcome

def headers_1_1 : List (String × String) :=
  [("roll-number", ROLL_NUMBER), ("Content-Type", "application/json")]

def data_1_1 (env : ScriptEnv) : JVal :=
  JVal.obj [("firstName", JVal.str "StandardTestUser"),
            ("lastName", JVal.str "StandardTestLast"),
            ("phoneNumber",
              JVal.num (generate_very_unique_phone_number env.uuidPhone11 env.timePhone11)),
            ("emailId", JVal.str (generate_very_unique_email env.uuidEmail11 env.timeEmail11))]

def headers_2_1 : List (String × String) := [("Content-Type", "application/json")]

def data_2_1 (env : ScriptEnv) : JVal :=
  JVal.obj [("firstName", JVal.str "Jane"),
            ("lastName", JVal.str "Doe"),
            ("phoneNumber",
              JVal.num (generate_very_unique_phone_number env.uuidPhone21 env.timePhone21)),
            ("emailId", JVal.str (generate_very_unique_email env.uuidEmail21 env.timeEmail21))]

def setup_headers : List (String × String) :=
  [("roll-number", ROLL_NUMBER), ("Content-Type", "application/json")]

/-- `duplicate_phone_number` (`src/a.py` line 139): generated once, used by
both the setup request and the duplicate request of Test Case 3.1. -/
def duplicate_phone_number (env : ScriptEnv) : Nat :=
  generate_very_unique_phone_number env.uuidPhoneSetup env.timePhoneSetup

def setup_data (env : ScriptEnv) : JVal :=
  JVal.obj [("firstName", JVal.str "SetupUser"),
            ("lastName", JVal.str "SetupLast"),
            ("phoneNumber", JVal.num (duplicate_phone_number env)),
            ("emailId",
              JVal.str (generate_very_unique_email env.uuidEmailSetup env.timeEmailSetup))]

def headers_3_1 : List (String × String) :=
  [("roll-number", ROLL_NUMBER), ("Content-Type", "application/json")]

def data_3_1 (env : ScriptEnv) : JVal :=
  JVal.obj [("firstName", JVal.str "NewUser"),
            ("lastName", JVal.str "NewLast"),
            ("phoneNumber", JVal.num (duplicate_phone_number env)),
            ("emailId", JVal.str (generate_very_unique_email env.uuidEmail31 env.timeEmail31))]

/-- Test Case 1.1 (`src/a.py` lines 66-106). -/
def tc11 (env : ScriptEnv) : SM Unit := do
  pyPrint "=== Test Case 1.1: User Creation Attempt ==="
  let response_1_1 ← send_request headers_1_1 (data_1_1 env) env.out11
  let r ← assertSome response_1_1
    "TC 1.1 Failed: Request did not get a response. Connection likely failed or timed out."
  let expected_status_codes : List Nat := [200, 201]
  let is_400_user_exists :=
    (r.status_code == 400) && strNonempty r.content &&
      strContains r.text.toLower "user already exists"
  assertPy (expected_status_codes.contains r.status_code || is_400_user_exists)
    ("TC 1.1 Failed: Unexpected status code. Expected 200/201 or 400 (user exists), got " ++
      natDecStr r.status_code ++ ". Response: " ++ r.text)
  if expected_status_codes.contains r.status_code then
    pyPrint "TC 1.1: PASSED (User created successfully - Status 200/201)"
  else if is_400_user_exists then
    pyPrint "TC 1.1: PASSED (User creation failed as expected: User already exists - Status 400)"
  else
    pyPrint "TC 1.1: FAILED (Unexpected API response despite assertion pass criteria)"
  pyPrint "--- Test Case 1.1 Complete ---"

/-- Test Case 2.1 (`src/a.py` lines 109-127). -/
def tc21 (env : ScriptEnv) : SM Unit := do
  pyPrint "=== Test Case 2.1: Missing roll-number Header ==="
  let response_2_1 ← send_request headers_2_1 (data_2_1 env) env.out21
  let r ← assertSome response_2_1
    "TC 2.1 Failed: Request did not get a response. Connection likely failed or timed out."
  assertPy (r.status_code == 401)
    ("TC 2.1 Failed: Expected 401, got " ++ natDecStr r.status_code ++ ". Response: " ++ r.text)
  pyPrint "TC 2.1: PASSED"
  pyPrint "--- Test Case 2.1 Complete ---"

/-- Test Case 3.1 with its setup (`src/a.py` lines 130-200). -/
def tc31 (env : ScriptEnv) : SM Unit := do
  pyPrint "=== Test Case 3.1: Duplicate phoneNumber ==="
  pyPrint "--- TC 3.1 Setup: Creating a user for phone number duplication ---"
  let setup_response ← send_request setup_headers (setup_data env) env.outSetup
  let rs ← assertSome setup_response
    "TC 3.1 Setup Failed: Request did not get a response. Connection likely failed or timed out."
  let setup_expected_status_codes : List Nat := [200, 201]
  let setup_is_400_user_exists :=
    (rs.status_code == 400) && strNonempty rs.content &&
      strContains rs.text.toLower "user already exists"
  assertPy (setup_expected_status_codes.contains rs.status_code || setup_is_400_user_exists)
    ("TC 3.1 Setup Failed: Expected 200/201 or 400 (user exists), got " ++
      natDecStr rs.status_code ++ ". Response: " ++ rs.text)
  if setup_expected_status_codes.contains rs.status_code then
    pyPrint "--- TC 3.1 Setup Complete (User created for duplication) ---"
  else if setup_is_400_user_exists then
    pyPrint "--- TC 3.1 Setup Complete (User already exists for duplication) ---"
  else do
    pyPrint "--- TC 3.1 Setup FAILED (Unexpected API response) ---"
    throwHalt (Halt.exitCall "Exiting due to setup failure for Test Case 3.1")
  let response_3_1 ← send_request headers_3_1 (data_3_1 env) env.out31
  let r3 ← assertSome response_3_1
    "TC 3.1 Failed: Request did not get a response. Connection likely failed or timed out."
  assertPy (r3.status_code == 400)
    ("TC 3.1 Failed: Expected 400, got " ++ natDecStr r3.status_code ++ ". Response: " ++ r3.text)
  if r3.toBool && strNonempty r3.content then
    pyTry
      (do
        let response_json ← r3.jsonM
        let msgVal ← pyDictGet response_json "message" (JVal.str "")
        let error_message ← pyLower msgVal
        assertPy
          (strContains error_message "phone number" ||
            strContains error_message "user already exists")
          ("TC 3.1 Failed: Expected phone number or user already exists in error message, got " ++
            error_message))
      (fun e =>
        match e with
        | Halt.jsonDecodeErr =>
          some (pyPrint
            "Warning: TC 3.1: Response body for error is not valid JSON. Cannot assert message content.")
        | _ => none)
  else
    Mpure ()
  pyPrint "TC 3.1: PASSED"
  pyPrint "--- Test Case 3.1 Complete ---"

/-- The whole script, top to bottom. -/
def scriptMain (env : ScriptEnv) : SM Unit := do
  tc11 env
  tc21 env
  tc31 env
  pyPrint "--- All tests completed (basic example) ---"

/-- Run the script from the empty state. -/
def runScript (env : ScriptEnv) : SState × Except Halt Unit := scriptMain env ⟨[], []⟩

/-! ### Pass conditions and result classifiers (used by the claims) -/

/-- The pass condition of Test Case 1.1 (and of the Test Case 3.1 setup):
a response arrived and its status is 200/201, or it is a 400 with nonempty
body whose lowercased text contains "user already exists". -/
def createUserPass (ro : Option HTTPResponse) : Bool :=
  match ro with
  | none => false
  | some r =>
    ([200, 201] : List Nat).contains r.status_code ||
      ((r.status_code == 400) && strNonempty r.content &&
        strContains r.text.toLower "user already exists")

/-- The pass condition of Test Case 2.1: a response arrived with status 401. -/
def missingHeaderPass (ro : Option HTTPResponse) : Bool :=
  match ro with
  | none => false
  | some r => r.status_code == 401

/-- The pass condition of the main Test Case 3.1 request: a response
arrived with status 400. -/
def duplicatePhonePass (ro : Option HTTPResponse) : Bool :=
  match ro with
  | none => false
  | some r => r.status_code == 400

def isAssertFailRes : Except Halt Unit → Bool
  | Except.error (Halt.assertFail _) => true
  | _ => false

def isExitRes : Except Halt Unit → Bool
  | Except.error (Halt.exitCall _) => true
  | _ => false

/-- Number of HTTP requests the script issues, as a function of which pass
conditions hold. -/
def issuedCount (env : ScriptEnv) : Nat :=
  if createUserPass (responseOf env.out11) = false then 1
  else if missingHeaderPass (responseOf env.out21) = false then 2
  else if createUserPass (responseOf env.outSetup) = false then 3
  else 4

/-- Lookup of a header value in a headers dict. -/
def lookupHeader : List (String × String) → String → Option String
  | [], _ => none
  | (k, v) :: rest, key => if k == key then some v else lookupHeader rest key

/-- The field of a JSON object, if the value is an object and has it. -/
def jsonField (j : JVal) (key : String) : Option JVal :=
  match j with
  | JVal.obj fs => lookupField fs key
  | _ => none

/-- A concrete environment on which every test case passes: the duplicate
request is answered with a 400 whose JSON message is "nope". -/
def envC : ScriptEnv :=
  ⟨0, 0, 0, 0, 0, 0, 0, 0, 0, 0, 0, 0, 0, 0,
    TransportOutcome.success ⟨200, ResponseBody.rawBody ""⟩,
    TransportOutcome.success ⟨401, ResponseBody.rawBody ""⟩,
    TransportOutcome.success ⟨200, ResponseBody.rawBody ""⟩,
    TransportOutcome.success ⟨400,
      ResponseBody.jsonBody (JVal.obj [("message", JVal.str "nope")])⟩⟩

/-- A concrete environment on which every test case passes. -/
def envW : ScriptEnv :=
  ⟨0, 0, 0, 0, 0, 0, 0, 0, 0, 0, 0, 0, 0, 0,
    TransportOutcome.success ⟨201, ResponseBody.rawBody ""⟩,
    TransportOutcome.success ⟨401, ResponseBody.rawBody ""⟩,
    TransportOutcome.success ⟨200, ResponseBody.rawBody ""⟩,
    TransportOutcome.success ⟨400, ResponseBody.rawBody ""⟩⟩

/-! ### Helper lemmas: decimal digits -/

theorem toDecAux_eq_digits : ∀ fuel n, n ≤ fuel → toDecAux fuel n = Nat.digits 10 n := by
  intro fuel
  induction fuel with
  | zero =>
    intro n hn
    interval_cases n
    simp [toDecAux]
  | succ f ih =>
    intro n hn
    match n with
    | 0 => simp [toDecAux]
    | m + 1 =>
      rw [toDecAux, ih ((m + 1) / 10) (by omega), Nat.digits_def' (by norm_num) (Nat.succ_pos m)]

theorem pyStrNat_pos_eq (n : Nat) (hn : n ≠ 0) : pyStrNat n = (Nat.digits 10 n).reverse := by
  rw [pyStrNat, if_neg hn, toDecAux_eq_digits n n le_rfl]

theorem foldl_reverse_ofDigits (L : List Nat) (k : Nat) :
    List.foldl (fun a d => 10 * a + d) k L.reverse = k * 10 ^ L.length + Nat.ofDigits 10 L := by
  induction L generalizing k with
  | nil => simp
  | cons d L ih =>
    rw [List.reverse_cons, List.foldl_append, ih]
    simp only [List.foldl_cons, List.foldl_nil, Nat.ofDigits_cons, List.length_cons]
    ring

theorem pyIntOfDigits_pyStrNat (n : Nat) : pyIntOfDigits (pyStrNat n) = n := by
  by_cases hn : n = 0
  · subst hn; rfl
  · rw [pyStrNat_pos_eq n hn, pyIntOfDigits, foldl_reverse_ofDigits]
    have := Nat.ofDigits_digits 10 n
    omega

theorem digits_length_ten (n : Nat) (h1 : 1000000000 ≤ n) (h2 : n < 10000000000) :
    (Nat.digits 10 n).length = 10 := by
  rw [Nat.digits_len 10 n (by norm_num) (by omega)]
  have : Nat.log 10 n = 9 := by
    apply Nat.log_eq_of_pow_le_of_lt_pow <;> norm_num <;> omega
  omega

theorem truncate10_id (n : Nat) (h1 : 1000000000 ≤ n) (h2 : n < 10000000000) :
    truncate10 n = n := by
  rw [truncate10, List.take_of_length_le, pyIntOfDigits_pyStrNat]
  rw [pyStrNat_pos_eq n (by omega), List.length_reverse, digits_length_ten n h1 h2]

/-! ### Helper lemmas: hex rendering -/

theorem hexN_length : ∀ k n, (hexN k n).length = k := by
  intro k
  induction k with
  | zero => intro n; rfl
  | succ k ih => intro n; simp [hexN, ih]

theorem hexVal_hexChar (d : Nat) (h : d < 16) : hexVal (hexChar d) = d := by
  interval_cases d <;> rfl

theorem unhex_hexN : ∀ k n, unhex (hexN k n) = n % 16 ^ k := by
  intro k
  induction k with
  | zero => intro n; simp [hexN, unhex, Nat.mod_one]
  | succ k ih =>
    intro n
    have hmod : n % 16 ^ (k + 1) = n % 16 + 16 * (n / 16 % 16 ^ k) := by
      rw [show (16:ℕ) ^ (k + 1) = 16 * 16 ^ k by ring, Nat.mod_mul]
    rw [hexN, unhex, List.foldl_append]
    have hu : List.foldl (fun a c => 16 * a + hexVal c) 0 (hexN k (n / 16)) = n / 16 % 16 ^ k := by
      have := ih (n / 16)
      simpa [unhex] using this
    rw [hu]
    simp only [List.foldl_cons, List.foldl_nil]
    rw [hexVal_hexChar (n % 16) (Nat.mod_lt _ (by norm_num))]
    omega

theorem hexN32_inj (u1 u2 : Nat) (h1 : u1 < 2 ^ 128) (h2 : u2 < 2 ^ 128)
    (h : hexN 32 u1 = hexN 32 u2) : u1 = u2 := by
  have e := congrArg unhex h
  rw [unhex_hexN, unhex_hexN] at e
  have hp : (16:ℕ) ^ 32 = 2 ^ 128 := by norm_num
  rwa [hp, Nat.mod_eq_of_lt h1, Nat.mod_eq_of_lt h2] at e

theorem hexN_mem (k n : Nat) (c : Char) (hc : c ∈ hexN k n) : ∃ d, d < 16 ∧ c = hexChar d := by
  induction k generalizing n with
  | zero => simp [hexN] at hc
  | succ k ih =>
    rw [hexN, List.mem_append] at hc
    rcases hc with hc | hc
    · exact ih _ hc
    · exact ⟨n % 16, Nat.mod_lt _ (by norm_num), by simpa using hc⟩

theorem hexChar_ne (d : Nat) (h : d < 16) : hexChar d ≠ '@' ∧ hexChar d ≠ '_' := by
  interval_cases d <;> exact ⟨by decide, by decide⟩

/-! ### Helper lemmas: decimal strings -/

theorem toDecAux_mem_lt : ∀ fuel n d, d ∈ toDecAux fuel n → d < 10 := by
  intro fuel
  induction fuel with
  | zero => intro n d hd; simp [toDecAux] at hd
  | succ f ih =>
    intro n d hd
    match n with
    | 0 => simp [toDecAux] at hd
    | m + 1 =>
      rw [toDecAux, List.mem_cons] at hd
      rcases hd with hd | hd
      · omega
      · exact ih _ _ hd

theorem pyStrNat_mem_lt (n d : Nat) (hd : d ∈ pyStrNat n) : d < 10 := by
  by_cases hn : n = 0
  · subst hn
    have : d = 0 := by simpa [pyStrNat] using hd
    omega
  · rw [pyStrNat, if_neg hn, List.mem_reverse] at hd
    exact toDecAux_mem_lt n n d hd

theorem decChar_toNat (d : Nat) (h : d < 10) : (decChar d).toNat = 48 + d := by
  interval_cases d <;> rfl

theorem decChar_ne (d : Nat) (h : d < 10) : decChar d ≠ '@' ∧ decChar d ≠ '_' := by
  interval_cases d <;> exact ⟨by decide, by decide⟩

theorem parseDec_foldl_map (l : List Nat) (hl : ∀ d ∈ l, d < 10) :
    ∀ k, List.foldl (fun a c => 10 * a + (c.toNat - 48)) k (l.map decChar) =
      List.foldl (fun a d => 10 * a + d) k l := by
  induction l with
  | nil => intro k; rfl
  | cons d l ih =>
    intro k
    simp only [List.map_cons, List.foldl_cons]
    rw [decChar_toNat d (hl d (List.mem_cons_self d l))]
    have : 48 + d - 48 = d := by omega
    rw [this]
    exact ih (fun x hx => hl x (List.mem_cons_of_mem d hx)) _

theorem parseDec_natDecStr (n : Nat) : parseDec (natDecStr n).data = n := by
  show parseDec ((pyStrNat n).map decChar) = n
  rw [parseDec, parseDec_foldl_map (pyStrNat n) (fun d hd => pyStrNat_mem_lt n d hd)]
  exact pyIntOfDigits_pyStrNat n

theorem natDecStr_inj (n1 n2 : Nat) (h : (natDecStr n1).data = (natDecStr n2).data) :
    n1 = n2 := by
  have := congrArg parseDec h
  rwa [parseDec_natDecStr, parseDec_natDecStr] at this

theorem natDecStr_mem (n : Nat) (c : Char) (hc : c ∈ (natDecStr n).data) :
    ∃ d, d < 10 ∧ c = decChar d := by
  have hm : c ∈ (pyStrNat n).map decChar := hc
  rw [List.mem_map] at hm
  obtain ⟨d, hd, rfl⟩ := hm
  exact ⟨d, pyStrNat_mem_lt n d hd, rfl⟩

theorem string_eq_of_data (s t : String) (h : s.data = t.data) : s = t := by
  cases s; cases t; exact congrArg String.mk h

theorem uuidHex_data (u : Nat) : (uuidHex u).data = hexN 32 u := rfl

theorem loc_data (u t : Nat) : ("testuser_" ++ uuidHex u ++ "_" ++ natDecStr t).data =
    "testuser_".data ++ (hexN 32 u ++ '_' :: (natDecStr t).data) := by
  simp only [String.data_append, uuidHex, List.append_assoc]
  rfl

theorem append_at_example (s : String) : s ++ "@example.com" = s ++ "@" ++ "example.com" := by
  apply string_eq_of_data
  simp only [String.data_append, List.append_assoc]
  congr 1

/-! ### Helper lemmas: email structure -/

theorem email_data (u t : Nat) :
    (generate_very_unique_email u t).data =
      "testuser_".data ++ (hexN 32 u ++ '_' :: ((natDecStr t).data ++ "@example.com".data)) := by
  show ((("testuser_" ++ uuidHex u) ++ "_") ++ natDecStr t ++ "@example.com").data = _
  simp only [String.data_append, uuidHex, List.append_assoc]
  rfl

theorem count_at_hexN (k n : Nat) : (hexN k n).count '@' = 0 := by
  rw [List.count_eq_zero]
  intro hc
  obtain ⟨d, hd, hcc⟩ := hexN_mem k n '@' hc
  exact (hexChar_ne d hd).1 hcc.symm

theorem count_at_natDecStr (n : Nat) : (natDecStr n).data.count '@' = 0 := by
  rw [List.count_eq_zero]
  intro hc
  obtain ⟨d, hd, hcc⟩ := natDecStr_mem n '@' hc
  exact (decChar_ne d hd).1 hcc.symm

theorem email_at_count (u t : Nat) : charCount (generate_very_unique_email u t) '@' = 1 := by
  rw [charCount, email_data]
  simp only [List.count_append, List.count_cons, count_at_hexN, count_at_natDecStr]
  decide

theorem email_inj (u1 t1 u2 t2 : Nat) (h1 : u1 < 2 ^ 128) (h2 : u2 < 2 ^ 128)
    (he : generate_very_unique_email u1 t1 = generate_very_unique_email u2 t2) :
    u1 = u2 ∧ t1 = t2 := by
  have hd := congrArg String.data he
  rw [email_data, email_data] at hd
  have hcut := List.append_cancel_left hd
  have hlen : (hexN 32 u1).length = (hexN 32 u2).length := by rw [hexN_length, hexN_length]
  have hhex := List.append_inj_left hcut hlen
  have hrest := List.append_inj_right hcut hlen
  have hr2 : (natDecStr t1).data ++ "@example.com".data =
      (natDecStr t2).data ++ "@example.com".data := by
    simpa using hrest
  exact ⟨hexN32_inj u1 u2 h1 h2 hhex, natDecStr_inj _ _ (List.append_cancel_right hr2)⟩

/-! ### Monad reduction and characterization lemmas -/

theorem bind_eq_Mbind {α β : Type} (x : SM α) (f : α → SM β) : x >>= f = Mbind x f := rfl

theorem pure_eq_Mpure {α : Type} (a : α) : (pure a : SM α) = Mpure a := rfl

theorem pyStrNat_ne_nil (n : Nat) : pyStrNat n ≠ [] := by
  rw [pyStrNat]
  split
  · simp
  · next hn =>
    obtain ⟨m, rfl⟩ := Nat.exists_eq_succ_of_ne_zero hn
    simp [toDecAux]

theorem renderJ_ne_nil (j : JVal) : strNonempty (renderJ j) = true := by
  cases j with
  | str s => simp [renderJ, strNonempty, String.data_append]
  | num n => simp [renderJ, natDecStr, strNonempty, List.isEmpty_iff, pyStrNat_ne_nil]
  | bool b => cases b <;> simp [renderJ, strNonempty]
  | null => simp [renderJ, strNonempty]
  | arr es => simp [renderJ, strNonempty, String.data_append]
  | obj fs => simp [renderJ, strNonempty, String.data_append]

theorem send_request_eq (headers : List (String × String)) (data : JVal)
    (o : TransportOutcome) (s : SState) :
    send_request headers data o s =
      (⟨s.log ++ srLog headers data o, s.issued ++ [mkReq headers data]⟩,
        Except.ok (responseOf o)) := by
  cases o with
  | failure e =>
    simp [send_request, srLog, mkReq, responseOf, pyTry, bind_eq_Mbind, pure_eq_Mpure,
      Mbind, Mpure, pyPrint, doPost]
  | success r =>
    obtain ⟨st, body⟩ := r
    cases body with
    | jsonBody j =>
      simp [send_request, srLog, mkReq, responseOf, pyTry, bind_eq_Mbind, pure_eq_Mpure,
        Mbind, Mpure, pyPrint, doPost, srBodyLines, HTTPResponse.content, HTTPResponse.text,
        HTTPResponse.jsonM, renderJ_ne_nil]
    | rawBody b =>
      cases hb : strNonempty b <;>
      simp [send_request, srLog, mkReq, responseOf, pyTry, bind_eq_Mbind, pure_eq_Mpure,
        Mbind, Mpure, pyPrint, doPost, srBodyLines, HTTPResponse.content, HTTPResponse.text,
        HTTPResponse.jsonM, hb]

theorem tc21_char (env : ScriptEnv) (s : SState) :
    ∃ lg, (tc21 env s).1 = ⟨s.log ++ lg, s.issued ++ [mkReq headers_2_1 (data_2_1 env)]⟩ ∧
      (if missingHeaderPass (responseOf env.out21) = true
       then (tc21 env s).2 = Except.ok ()
       else isAssertFailRes ((tc21 env s).2) = true) := by
  cases ho : env.out21 with
  | failure e =>
    refine ⟨"=== Test Case 2.1: Missing roll-number Header ===" ::
      srLog headers_2_1 (data_2_1 env) (TransportOutcome.failure e), ?_, ?_⟩ <;>
    simp [tc21, ho, bind_eq_Mbind, Mbind, pyPrint, send_request_eq, assertSome,
      responseOf, missingHeaderPass, isAssertFailRes]
  | success r =>
    cases h4 : (r.status_code == 401) with
    | true =>
      refine ⟨"=== Test Case 2.1: Missing roll-number Header ===" ::
        srLog headers_2_1 (data_2_1 env) (TransportOutcome.success r) ++
        ["TC 2.1: PASSED", "--- Test Case 2.1 Complete ---"], ?_, ?_⟩ <;>
      simp [tc21, ho, bind_eq_Mbind, Mbind, pyPrint, send_request_eq, assertSome, assertPy,
        responseOf, missingHeaderPass, isAssertFailRes, h4]
    | false =>
      refine ⟨"=== Test Case 2.1: Missing roll-number Header ===" ::
        srLog headers_2_1 (data_2_1 env) (TransportOutcome.success r), ?_, ?_⟩ <;>
      simp [tc21, ho, bind_eq_Mbind, Mbind, pyPrint, send_request_eq, assertSome, assertPy,
        responseOf, missingHeaderPass, isAssertFailRes, h4]

theorem tc11_char (env : ScriptEnv) (s : SState) :
    ∃ lg, (tc11 env s).1 = ⟨s.log ++ lg, s.issued ++ [mkReq headers_1_1 (data_1_1 env)]⟩ ∧
      (if createUserPass (responseOf env.out11) = true
       then (tc11 env s).2 = Except.ok () ∧
         ∃ m, m ∈ lg ∧ prefixMatch "TC 1.1: PASSED".data m.data = true
       else isAssertFailRes ((tc11 env s).2) = true) := by
  cases ho : env.out11 with
  | failure e =>
    refine ⟨"=== Test Case 1.1: User Creation Attempt ===" ::
      srLog headers_1_1 (data_1_1 env) (TransportOutcome.failure e), ?_, ?_⟩ <;>
    simp [tc11, ho, bind_eq_Mbind, Mbind, pyPrint, send_request_eq, assertSome,
      responseOf, createUserPass, isAssertFailRes]
  | success r =>
    by_cases hc : r.status_code = 200 ∨ r.status_code = 201
    · refine ⟨"=== Test Case 1.1: User Creation Attempt ===" ::
        srLog headers_1_1 (data_1_1 env) (TransportOutcome.success r) ++
        ["TC 1.1: PASSED (User created successfully - Status 200/201)",
         "--- Test Case 1.1 Complete ---"], ?_, ?_⟩
      · simp [tc11, ho, bind_eq_Mbind, Mbind, pyPrint, send_request_eq, assertSome, assertPy,
          responseOf, createUserPass, hc]
      · rw [if_pos (by simp [ho, responseOf, createUserPass, hc])]
        refine ⟨?_, "TC 1.1: PASSED (User created successfully - Status 200/201)", by simp, by decide⟩
        simp [tc11, ho, bind_eq_Mbind, Mbind, pyPrint, send_request_eq, assertSome, assertPy,
          responseOf, hc]
    · by_cases hx : (r.status_code = 400 ∧ strNonempty r.content = true) ∧
        strContains r.text.toLower "user already exists" = true
      · refine ⟨"=== Test Case 1.1: User Creation Attempt ===" ::
          srLog headers_1_1 (data_1_1 env) (TransportOutcome.success r) ++
          ["TC 1.1: PASSED (User creation failed as expected: User already exists - Status 400)",
           "--- Test Case 1.1 Complete ---"], ?_, ?_⟩
        · simp [tc11, ho, bind_eq_Mbind, Mbind, pyPrint, send_request_eq, assertSome, assertPy,
            responseOf, createUserPass, hc, hx]
        · rw [if_pos (by simp [ho, responseOf, createUserPass, hc, hx])]
          refine ⟨?_,
            "TC 1.1: PASSED (User creation failed as expected: User already exists - Status 400)",
            by simp, by decide⟩
          simp [tc11, ho, bind_eq_Mbind, Mbind, pyPrint, send_request_eq, assertSome, assertPy,
            responseOf, hc, hx]
      · refine ⟨"=== Test Case 1.1: User Creation Attempt ===" ::
          srLog headers_1_1 (data_1_1 env) (TransportOutcome.success r), ?_, ?_⟩ <;>
        simp [tc11, ho, bind_eq_Mbind, Mbind, pyPrint, send_request_eq, assertSome, assertPy,
          responseOf, createUserPass, isAssertFailRes, hc, hx]

theorem tc31_char (env : ScriptEnv) (s : SState) :
    ∃ lg, (tc31 env s).1.log = s.log ++ lg ∧
      (if createUserPass (responseOf env.outSetup) = true
       then (tc31 env s).1.issued =
           s.issued ++ [mkReq setup_headers (setup_data env), mkReq headers_3_1 (data_3_1 env)] ∧
         (if duplicatePhonePass (responseOf env.out31) = true
          then (tc31 env s).2 = Except.ok ()
          else isAssertFailRes ((tc31 env s).2) = true)
       else (tc31 env s).1.issued = s.issued ++ [mkReq setup_headers (setup_data env)] ∧
         isAssertFailRes ((tc31 env s).2) = true) := by
  cases ho : env.outSetup with
  | failure e =>
    refine ⟨["=== Test Case 3.1: Duplicate phoneNumber ===",
      "--- TC 3.1 Setup: Creating a user for phone number duplication ---"] ++
      srLog setup_headers (setup_data env) (TransportOutcome.failure e), ?_, ?_⟩ <;>
    simp [tc31, ho, bind_eq_Mbind, Mbind, pyPrint, send_request_eq, assertSome,
      responseOf, createUserPass, isAssertFailRes]
  | success rs =>
    by_cases hcs : rs.status_code = 200 ∨ rs.status_code = 201
    · cases ho3 : env.out31 with
      | failure e3 =>
        refine ⟨["=== Test Case 3.1: Duplicate phoneNumber ===",
          "--- TC 3.1 Setup: Creating a user for phone number duplication ---"] ++
          srLog setup_headers (setup_data env) (TransportOutcome.success rs) ++
          ["--- TC 3.1 Setup Complete (User created for duplication) ---"] ++
          srLog headers_3_1 (data_3_1 env) (TransportOutcome.failure e3), ?_, ?_⟩ <;>
        simp [tc31, ho, ho3, bind_eq_Mbind, Mbind, pyPrint, send_request_eq, assertSome,
          assertPy, responseOf, createUserPass, duplicatePhonePass, isAssertFailRes, hcs]
      | success r3 =>
        by_cases h400 : r3.status_code = 400
        · refine ⟨["=== Test Case 3.1: Duplicate phoneNumber ===",
            "--- TC 3.1 Setup: Creating a user for phone number duplication ---"] ++
            srLog setup_headers (setup_data env) (TransportOutcome.success rs) ++
            ["--- TC 3.1 Setup Complete (User created for duplication) ---"] ++
            srLog headers_3_1 (data_3_1 env) (TransportOutcome.success r3) ++
            ["TC 3.1: PASSED", "--- Test Case 3.1 Complete ---"], ?_, ?_⟩ <;>
          simp [tc31, ho, ho3, bind_eq_Mbind, Mbind, Mpure, pyPrint, send_request_eq,
            assertSome, assertPy, responseOf, createUserPass, duplicatePhonePass,
            isAssertFailRes, HTTPResponse.toBool, hcs, h400]
        · refine ⟨["=== Test Case 3.1: Duplicate phoneNumber ===",
            "--- TC 3.1 Setup: Creating a user for phone number duplication ---"] ++
            srLog setup_headers (setup_data env) (TransportOutcome.success rs) ++
            ["--- TC 3.1 Setup Complete (User created for duplication) ---"] ++
            srLog headers_3_1 (data_3_1 env) (TransportOutcome.success r3), ?_, ?_⟩ <;>
          simp [tc31, ho, ho3, bind_eq_Mbind, Mbind, Mpure, pyPrint, send_request_eq,
            assertSome, assertPy, responseOf, createUserPass, duplicatePhonePass,
            isAssertFailRes, HTTPResponse.toBool, hcs, h400]
    · by_cases hxs : (rs.status_code = 400 ∧ strNonempty rs.content = true) ∧
        strContains rs.text.toLower "user already exists" = true
      · cases ho3 : env.out31 with
        | failure e3 =>
          refine ⟨["=== Test Case 3.1: Duplicate phoneNumber ===",
            "--- TC 3.1 Setup: Creating a user for phone number duplication ---"] ++
            srLog setup_headers (setup_data env) (TransportOutcome.success rs) ++
            ["--- TC 3.1 Setup Complete (User already exists for duplication) ---"] ++
            srLog headers_3_1 (data_3_1 env) (TransportOutcome.failure e3), ?_, ?_⟩ <;>
          simp [tc31, ho, ho3, bind_eq_Mbind, Mbind, pyPrint, send_request_eq, assertSome,
            assertPy, responseOf, createUserPass, duplicatePhonePass, isAssertFailRes, hcs, hxs]
        | success r3 =>
          by_cases h400 : r3.status_code = 400
          · refine ⟨["=== Test Case 3.1: Duplicate phoneNumber ===",
              "--- TC 3.1 Setup: Creating a user for phone number duplication ---"] ++
              srLog setup_headers (setup_data env) (TransportOutcome.success rs) ++
              ["--- TC 3.1 Setup Complete (User already exists for duplication) ---"] ++
              srLog headers_3_1 (data_3_1 env) (TransportOutcome.success r3) ++
              ["TC 3.1: PASSED", "--- Test Case 3.1 Complete ---"], ?_, ?_⟩ <;>
            simp [tc31, ho, ho3, bind_eq_Mbind, Mbind, Mpure, pyPrint, send_request_eq,
              assertSome, assertPy, responseOf, createUserPass, duplicatePhonePass,
              isAssertFailRes, HTTPResponse.toBool, hcs, hxs, h400]
          · refine ⟨["=== Test Case 3.1: Duplicate phoneNumber ===",
              "--- TC 3.1 Setup: Creating a user for phone number duplication ---"] ++
              srLog setup_headers (setup_data env) (TransportOutcome.success rs) ++
              ["--- TC 3.1 Setup Complete (User already exists for duplication) ---"] ++
              srLog headers_3_1 (data_3_1 env) (TransportOutcome.success r3), ?_, ?_⟩ <;>
            simp [tc31, ho, ho3, bind_eq_Mbind, Mbind, Mpure, pyPrint, send_request_eq,
              assertSome, assertPy, responseOf, createUserPass, duplicatePhonePass,
              isAssertFailRes, HTTPResponse.toBool, hcs, hxs, h400]
      · refine ⟨["=== Test Case 3.1: Duplicate phoneNumber ===",
          "--- TC 3.1 Setup: Creating a user for phone number duplication ---"] ++
          srLog setup_headers (setup_data env) (TransportOutcome.success rs), ?_, ?_⟩ <;>
        simp [tc31, ho, bind_eq_Mbind, Mbind, pyPrint, send_request_eq, assertSome,
          assertPy, responseOf, createUserPass, isAssertFailRes, hcs, hxs]

theorem Mbind_apply_ok {α β : Type} {x : SM α} {f : α → SM β} {s s' : SState} {a : α}
    (h : x s = (s', Except.ok a)) : Mbind x f s = f a s' := by
  simp only [Mbind, h]

theorem Mbind_apply_err {α β : Type} {x : SM α} {f : α → SM β} {s s' : SState} {e : Halt}
    (h : x s = (s', Except.error e)) : Mbind x f s = (s', Except.error e) := by
  simp only [Mbind, h]

theorem isAssertFailRes_exists (x : Except Halt Unit) (h : isAssertFailRes x = true) :
    ∃ m, x = Except.error (Halt.assertFail m) := by
  match x with
  | Except.ok _ => simp [isAssertFailRes] at h
  | Except.error (Halt.assertFail m) => exact ⟨m, rfl⟩
  | Except.error (Halt.requestExc _) => simp [isAssertFailRes] at h
  | Except.error Halt.jsonDecodeErr => simp [isAssertFailRes] at h
  | Except.error Halt.attrErr => simp [isAssertFailRes] at h
  | Except.error (Halt.exitCall _) => simp [isAssertFailRes] at h

theorem sstate_ext (a b : SState) (h1 : a.log = b.log) (h2 : a.issued = b.issued) : a = b := by
  cases a; cases b; simp_all

theorem runScript_char (env : ScriptEnv) :
    (runScript env).1.issued.length = issuedCount env ∧
    ((runScript env).2 = Except.ok () ∨ isAssertFailRes ((runScript env).2) = true) ∧
    ((runScript env).2 = Except.ok () ↔
      (createUserPass (responseOf env.out11) = true ∧
       missingHeaderPass (responseOf env.out21) = true ∧
       createUserPass (responseOf env.outSetup) = true ∧
       duplicatePhonePass (responseOf env.out31) = true)) ∧
    (createUserPass (responseOf env.out11) = true →
      ∃ m, m ∈ (runScript env).1.log ∧ prefixMatch "TC 1.1: PASSED".data m.data = true) ∧
    (createUserPass (responseOf env.out11) = true →
      (runScript env).1.issued[1]? = some (mkReq headers_2_1 (data_2_1 env))) := by
  obtain ⟨lg1, h1s, h1r⟩ := tc11_char env ⟨[], []⟩
  have hrs : runScript env = Mbind (tc11 env) (fun _ => Mbind (tc21 env) (fun _ =>
      Mbind (tc31 env) (fun _ =>
        pyPrint "--- All tests completed (basic example) ---"))) ⟨[], []⟩ := rfl
  cases c1 : createUserPass (responseOf env.out11) with
  | false =>
    rw [if_neg (by simp [c1])] at h1r
    obtain ⟨msg, hmsg⟩ := isAssertFailRes_exists _ h1r
    have hp : tc11 env ⟨[], []⟩ =
        (⟨([] : List String) ++ lg1, ([] : List IssuedRequest) ++ [mkReq headers_1_1 (data_1_1 env)]⟩,
          Except.error (Halt.assertFail msg)) := Prod.ext h1s hmsg
    rw [hrs, Mbind_apply_err hp]
    refine ⟨by simp [issuedCount, c1], Or.inr (by simp [isAssertFailRes]), ?_, ?_, ?_⟩
    · simp [c1]
    · simp [c1]
    · simp [c1]
  | true =>
    rw [if_pos c1] at h1r
    obtain ⟨h1ok, m1, hm1, hpm1⟩ := h1r
    have hp : tc11 env ⟨[], []⟩ =
        (⟨([] : List String) ++ lg1, ([] : List IssuedRequest) ++ [mkReq headers_1_1 (data_1_1 env)]⟩,
          Except.ok ()) := Prod.ext h1s h1ok
    rw [hrs, Mbind_apply_ok hp]
    obtain ⟨lg2, h2s, h2r⟩ := tc21_char env
      ⟨[] ++ lg1, [] ++ [mkReq headers_1_1 (data_1_1 env)]⟩
    cases c2 : missingHeaderPass (responseOf env.out21) with
    | false =>
      rw [if_neg (by simp [c2])] at h2r
      obtain ⟨msg, hmsg⟩ := isAssertFailRes_exists _ h2r
      have hp2 : tc21 env ⟨[] ++ lg1, [] ++ [mkReq headers_1_1 (data_1_1 env)]⟩ =
          (⟨([] ++ lg1) ++ lg2,
            ([] ++ [mkReq headers_1_1 (data_1_1 env)]) ++ [mkReq headers_2_1 (data_2_1 env)]⟩,
            Except.error (Halt.assertFail msg)) := Prod.ext h2s hmsg
      rw [Mbind_apply_err hp2]
      refine ⟨by simp [issuedCount, c1, c2], Or.inr (by simp [isAssertFailRes]), ?_, ?_, ?_⟩
      · simp [c2]
      · intro _
        exact ⟨m1, by simp [hm1], hpm1⟩
      · intro _
        simp
    | true =>
      rw [if_pos c2] at h2r
      have hp2 : tc21 env ⟨[] ++ lg1, [] ++ [mkReq headers_1_1 (data_1_1 env)]⟩ =
          (⟨([] ++ lg1) ++ lg2,
            ([] ++ [mkReq headers_1_1 (data_1_1 env)]) ++ [mkReq headers_2_1 (data_2_1 env)]⟩,
            Except.ok ()) := Prod.ext h2s h2r
      rw [Mbind_apply_ok hp2]
      obtain ⟨lg3, h3s, h3r⟩ := tc31_char env
        ⟨([] ++ lg1) ++ lg2,
          ([] ++ [mkReq headers_1_1 (data_1_1 env)]) ++ [mkReq headers_2_1 (data_2_1 env)]⟩
      cases c3 : createUserPass (responseOf env.outSetup) with
      | false =>
        rw [if_neg (by simp [c3])] at h3r
        obtain ⟨h3iss, h3res⟩ := h3r
        obtain ⟨msg, hmsg⟩ := isAssertFailRes_exists _ h3res
        have hp3 : tc31 env ⟨([] ++ lg1) ++ lg2,
            ([] ++ [mkReq headers_1_1 (data_1_1 env)]) ++ [mkReq headers_2_1 (data_2_1 env)]⟩ =
            (⟨(([] ++ lg1) ++ lg2) ++ lg3,
              (([] ++ [mkReq headers_1_1 (data_1_1 env)]) ++ [mkReq headers_2_1 (data_2_1 env)]) ++
                [mkReq setup_headers (setup_data env)]⟩,
              Except.error (Halt.assertFail msg)) :=
          Prod.ext (sstate_ext _ _ h3s h3iss) hmsg
        rw [Mbind_apply_err hp3]
        refine ⟨by simp [issuedCount, c1, c2, c3], Or.inr (by simp [isAssertFailRes]), ?_, ?_, ?_⟩
        · simp [c3]
        · intro _
          exact ⟨m1, by simp [hm1], hpm1⟩
        · intro _
          simp
      | true =>
        rw [if_pos c3] at h3r
        obtain ⟨h3iss, h3inner⟩ := h3r
        cases c4 : duplicatePhonePass (responseOf env.out31) with
        | false =>
          rw [if_neg (by simp [c4])] at h3inner
          obtain ⟨msg, hmsg⟩ := isAssertFailRes_exists _ h3inner
          have hp3 : tc31 env ⟨([] ++ lg1) ++ lg2,
              ([] ++ [mkReq headers_1_1 (data_1_1 env)]) ++ [mkReq headers_2_1 (data_2_1 env)]⟩ =
              (⟨(([] ++ lg1) ++ lg2) ++ lg3,
                (([] ++ [mkReq headers_1_1 (data_1_1 env)]) ++ [mkReq headers_2_1 (data_2_1 env)]) ++
                  [mkReq setup_headers (setup_data env), mkReq headers_3_1 (data_3_1 env)]⟩,
                Except.error (Halt.assertFail msg)) :=
            Prod.ext (sstate_ext _ _ h3s h3iss) hmsg
          rw [Mbind_apply_err hp3]
          refine ⟨by simp [issuedCount, c1, c2, c3], Or.inr (by simp [isAssertFailRes]), ?_, ?_, ?_⟩
          · simp [c4]
          · intro _
            exact ⟨m1, by simp [hm1], hpm1⟩
          · intro _
            simp
        | true =>
          rw [if_pos c4] at h3inner
          have hp3 : tc31 env ⟨([] ++ lg1) ++ lg2,
              ([] ++ [mkReq headers_1_1 (data_1_1 env)]) ++ [mkReq headers_2_1 (data_2_1 env)]⟩ =
              (⟨(([] ++ lg1) ++ lg2) ++ lg3,
                (([] ++ [mkReq headers_1_1 (data_1_1 env)]) ++ [mkReq headers_2_1 (data_2_1 env)]) ++
                  [mkReq setup_headers (setup_data env), mkReq headers_3_1 (data_3_1 env)]⟩,
                Except.ok ()) :=
            Prod.ext (sstate_ext _ _ h3s h3iss) h3inner
          rw [Mbind_apply_ok hp3]
          refine ⟨by simp [issuedCount, c1, c2, c3, pyPrint],
            Or.inl (by simp [pyPrint]), ?_, ?_, ?_⟩
          · simp [pyPrint, c1, c2, c3, c4]
          · intro _
            exact ⟨m1, by simp [pyPrint, hm1], hpm1⟩
          · intro _
            simp [pyPrint]

/-! ### Claim theorems: data generators -/

/-- Claim C1: for every 128-bit uuid value `u` and timestamp `t` read during
the call, `generate_very_unique_phone_number` returns exactly
`9000000000 + ((u + t) mod 10^9)`; consequently the result has exactly 10
decimal digits with leading digit 9, and the final truncate step
`int(str(phone_number)[:10])` is the identity on the computed value. -/
theorem claim_C1 (u t : Nat) :
    generate_very_unique_phone_number u t = 9000000000 + (u + t) % 1000000000 ∧
    (Nat.digits 10 (generate_very_unique_phone_number u t)).length = 10 ∧
    generate_very_unique_phone_number u t / 1000000000 = 9 ∧
    truncate10 (9000000000 + (u + t) % 1000000000) = 9000000000 + (u + t) % 1000000000 := by
  have hlt : (u + t) % 1000000000 < 1000000000 := Nat.mod_lt _ (by norm_num)
  have htr := truncate10_id (9000000000 + (u + t) % 1000000000) (by omega) (by omega)
  have heq : generate_very_unique_phone_number u t = 9000000000 + (u + t) % 1000000000 := by
    simp only [generate_very_unique_phone_number]
    exact htr
  refine ⟨heq, ?_, ?_, htr⟩
  · rw [heq]
    exact digits_length_ten _ (by omega) (by omega)
  · rw [heq]
    omega

/-- Claim C7: `generate_very_unique_email` returns the string
`"testuser_" ++ (u as 32 hex characters) ++ "_" ++ (decimal of t) ++ "@example.com"`,
which matches the `local@domain` shape (exactly one at-sign, nonempty local
part and domain), and calls with distinct `(u, t)` pairs return distinct
strings. -/
theorem claim_C7 (u1 t1 u2 t2 : Nat) (h1 : u1 < 2 ^ 128) (h2 : u2 < 2 ^ 128)
    (hne : (u1, t1) ≠ (u2, t2)) :
    generate_very_unique_email u1 t1 =
      "testuser_" ++ uuidHex u1 ++ "_" ++ natDecStr t1 ++ "@example.com" ∧
    (uuidHex u1).length = 32 ∧
    charCount (generate_very_unique_email u1 t1) '@' = 1 ∧
    (∃ loc dom : String, generate_very_unique_email u1 t1 = loc ++ "@" ++ dom ∧
      loc ≠ "" ∧ dom ≠ "" ∧ charCount loc '@' = 0 ∧ charCount dom '@' = 0) ∧
    generate_very_unique_email u1 t1 ≠ generate_very_unique_email u2 t2 := by
  refine ⟨rfl, ?_, email_at_count u1 t1, ?_, ?_⟩
  · show (hexN 32 u1).length = 32
    exact hexN_length 32 u1
  · refine ⟨"testuser_" ++ uuidHex u1 ++ "_" ++ natDecStr t1, "example.com",
      ?_, ?_, by decide, ?_, by decide⟩
    · rw [← append_at_example]
      rfl
    · intro hc
      have hd := congrArg String.data hc
      rw [loc_data] at hd
      have hlen := congrArg List.length hd
      rw [List.length_append] at hlen
      have h9 : ("testuser_".data).length = 9 := rfl
      have h0 : (("" : String).data).length = 0 := rfl
      omega
    · show (("testuser_" ++ uuidHex u1 ++ "_" ++ natDecStr t1).data).count '@' = 0
      rw [loc_data]
      simp only [List.count_append, List.count_cons, count_at_hexN, count_at_natDecStr]
      decide
  · intro he
    obtain ⟨hu, ht⟩ := email_inj u1 t1 u2 t2 h1 h2 he
    exact hne (by rw [hu, ht])

/-- Witness for C7 at `(u1, t1) = (0, 0)` and `(u2, t2) = (1, 2)`. -/
theorem claim_C7_witness :
    (0 : Nat) < 2 ^ 128 ∧ (1 : Nat) < 2 ^ 128 ∧
    ((0 : Nat), (0 : Nat)) ≠ ((1 : Nat), (2 : Nat)) ∧
    generate_very_unique_email 0 0 ≠ generate_very_unique_email 1 2 :=
  ⟨by norm_num, by norm_num, by decide,
    (claim_C7 0 0 1 2 (by norm_num) (by norm_num) (by decide)).2.2.2.2⟩

/-! ### Claim theorems: the request harness -/

/-- Claim C2: for every headers mapping and body, if the POST raises a
transport-level failure (a `requests.exceptions.RequestException` with any
message `e`), `send_request` catches it, logs the failure, and returns the
failure sentinel `None`; the overall result is `Except.ok none`, so no such
exception ever propagates to the caller. -/
theorem claim_C2 (headers : List (String × String)) (data : JVal) (e : String) (s : SState) :
    (send_request headers data (TransportOutcome.failure e) s).2 = Except.ok none ∧
    "--- Request Failed ---" ∈
      (send_request headers data (TransportOutcome.failure e) s).1.log ∧
    ("Request failed due to exception: " ++ e) ∈
      (send_request headers data (TransportOutcome.failure e) s).1.log := by
  rw [send_request_eq]
  refine ⟨rfl, ?_, ?_⟩ <;> simp [srLog]

/-- Claim C6: whenever the POST completes with a response object `r`,
`send_request` returns exactly `r` to the caller, for every possible body;
in particular a non-JSON body does not raise: the JSON decode failure is
caught and the harness logs the raw text instead. -/
theorem claim_C6 (headers : List (String × String)) (data : JVal) (r : HTTPResponse)
    (s : SState) :
    (send_request headers data (TransportOutcome.success r) s).2 = Except.ok (some r) ∧
    (∀ b, r.body = ResponseBody.rawBody b → strNonempty b = true →
      ("Response Body (Non-JSON): " ++ b) ∈
        (send_request headers data (TransportOutcome.success r) s).1.log) := by
  rw [send_request_eq]
  refine ⟨rfl, ?_⟩
  intro b hb hnb
  simp [srLog, srBodyLines, hb, hnb, HTTPResponse.text]

/-- Witness for C6: a 200 response with the non-JSON body "oops". -/
theorem claim_C6_witness :
    (⟨200, ResponseBody.rawBody "oops"⟩ : HTTPResponse).body = ResponseBody.rawBody "oops" ∧
    strNonempty "oops" = true ∧
    ("Response Body (Non-JSON): " ++ "oops") ∈
      (send_request [] JVal.null (TransportOutcome.success ⟨200, ResponseBody.rawBody "oops"⟩)
        ⟨[], []⟩).1.log :=
  ⟨rfl, rfl,
    (claim_C6 [] JVal.null ⟨200, ResponseBody.rawBody "oops"⟩ ⟨[], []⟩).2 "oops" rfl rfl⟩

/-- Claim C9: every call of `send_request` issues exactly one POST, to the
fixed `BASE_URL`, with the body serialized to JSON and a fixed timeout of
15, regardless of the outcome. -/
theorem claim_C9 (headers : List (String × String)) (data : JVal) (o : TransportOutcome)
    (s : SState) :
    (send_request headers data o s).1.issued = s.issued ++ [mkReq headers data] ∧
    (send_request headers data o s).1.issued.length = s.issued.length + 1 ∧
    mkReq headers data = ⟨BASE_URL, headers, renderJ data, 15⟩ := by
  rw [send_request_eq]
  exact ⟨rfl, by simp, rfl⟩

/-- Claim C10: `send_request` is total at its public interface: for every
headers mapping, JSON-serializable body and transport outcome it finishes
with `Except.ok` of either a response or the sentinel `none` — it raises
no exception. -/
theorem claim_C10 (headers : List (String × String)) (data : JVal) (o : TransportOutcome)
    (s : SState) :
    ∃ v : Option HTTPResponse, (send_request headers data o s).2 = Except.ok v :=
  ⟨responseOf o, by rw [send_request_eq]⟩

/-! ### Claim theorems: the scripted test cases -/

/-- Claim C4: the script proceeds past Test Case 1.1 and issues the Test
Case 2.1 request (a second request) exactly when the first response is
non-None with status in 200/201 or is a 400 whose nonempty body mentions
"user already exists" (`createUserPass`); on a pass it prints a line that
starts with "TC 1.1: PASSED", and on anything else it aborts by assertion
failure. -/
theorem claim_C4 (env : ScriptEnv) :
    (2 ≤ (runScript env).1.issued.length ↔ createUserPass (responseOf env.out11) = true) ∧
    (createUserPass (responseOf env.out11) = true →
      ∃ m, m ∈ (runScript env).1.log ∧ prefixMatch "TC 1.1: PASSED".data m.data = true) ∧
    (createUserPass (responseOf env.out11) = false →
      isAssertFailRes ((runScript env).2) = true) := by
  obtain ⟨hlen, hok, hiff, hpass, hreq⟩ := runScript_char env
  refine ⟨?_, hpass, ?_⟩
  · rw [hlen, issuedCount]
    split_ifs <;> simp_all
  · intro c1f
    rcases hok with h | h
    · rw [hiff] at h
      exact absurd h.1 (by simp [c1f])
    · exact h

/-- Witness for C4 at the all-passing environment `envW`. -/
theorem claim_C4_witness :
    createUserPass (responseOf envW.out11) = true ∧
    (∃ m, m ∈ (runScript envW).1.log ∧ prefixMatch "TC 1.1: PASSED".data m.data = true) :=
  ⟨rfl, (claim_C4 envW).2.1 rfl⟩

/-- Claim C5: once Test Case 1.1 has passed, the Test Case 2.1 request is
the second request issued, built from `headers_2_1`, which carries no
roll-number header; the script proceeds past Test Case 2.1 (issuing a
third request) exactly when that response is non-None with status 401,
and otherwise aborts by assertion failure. -/
theorem claim_C5 (env : ScriptEnv) (h11 : createUserPass (responseOf env.out11) = true) :
    (runScript env).1.issued[1]? = some (mkReq headers_2_1 (data_2_1 env)) ∧
    lookupHeader headers_2_1 "roll-number" = none ∧
    (3 ≤ (runScript env).1.issued.length ↔ missingHeaderPass (responseOf env.out21) = true) ∧
    (missingHeaderPass (responseOf env.out21) = false →
      isAssertFailRes ((runScript env).2) = true) := by
  obtain ⟨hlen, hok, hiff, hpass, hreq⟩ := runScript_char env
  refine ⟨hreq h11, rfl, ?_, ?_⟩
  · rw [hlen, issuedCount]
    split_ifs <;> simp_all
  · intro c2f
    rcases hok with h | h
    · rw [hiff] at h
      exact absurd h.2.1 (by simp [c2f])
    · exact h

/-- Witness for C5 at the all-passing environment `envW`. -/
theorem claim_C5_witness :
    createUserPass (responseOf envW.out11) = true ∧
    (runScript envW).1.issued[1]? = some (mkReq headers_2_1 (data_2_1 envW)) :=
  ⟨rfl, (claim_C5 envW rfl).1⟩

/-- Counterexample to C3 as stated: on `envC` the duplicate-phone request is
answered with status 400 and JSON message "nope", which contains neither
"phone number" nor "user already exists", yet every assertion passes and
the script completes normally.  (A status-400 `requests.Response` is falsy,
so the guard `if response_3_1 and response_3_1.content:` never lets the
message assertion run.) -/
theorem claim_C3_counterexample :
    (runScript envC).2 = Except.ok () ∧
    responseOf envC.out31 =
      some ⟨400, ResponseBody.jsonBody (JVal.obj [("message", JVal.str "nope")])⟩ ∧
    strContains "nope" "phone number" = false ∧
    strContains "nope" "user already exists" = false :=
  ⟨rfl, rfl, rfl, rfl⟩

/-- Claim C3 as amended: the second Test Case 3.1 request carries the same
phoneNumber as the setup request, and — once the earlier test cases and the
setup have passed — the script's assertions for that second request pass
exactly when the response is non-None with status 400; the message-content
assertion is unreachable because a status-400 response is falsy under
`requests`' truthiness, and any other response aborts by assertion
failure. -/
theorem claim_C3 (env : ScriptEnv)
    (h11 : createUserPass (responseOf env.out11) = true)
    (h21 : missingHeaderPass (responseOf env.out21) = true)
    (hsetup : createUserPass (responseOf env.outSetup) = true) :
    jsonField (setup_data env) "phoneNumber" = some (JVal.num (duplicate_phone_number env)) ∧
    jsonField (data_3_1 env) "phoneNumber" = some (JVal.num (duplicate_phone_number env)) ∧
    ((runScript env).2 = Except.ok () ↔ duplicatePhonePass (responseOf env.out31) = true) ∧
    (duplicatePhonePass (responseOf env.out31) = false →
      isAssertFailRes ((runScript env).2) = true) := by
  obtain ⟨_, hok, hiff, _, _⟩ := runScript_char env
  refine ⟨rfl, rfl, ?_, ?_⟩
  · rw [hiff]
    simp [h11, h21, hsetup]
  · intro c4f
    rcases hok with h | h
    · rw [hiff] at h
      exact absurd h.2.2.2 (by simp [c4f])
    · exact h

/-- Witness for the amended C3 at the all-passing environment `envC`. -/
theorem claim_C3_witness :
    createUserPass (responseOf envC.out11) = true ∧
    missingHeaderPass (responseOf envC.out21) = true ∧
    createUserPass (responseOf envC.outSetup) = true ∧
    ((runScript envC).2 = Except.ok () ↔ duplicatePhonePass (responseOf envC.out31) = true) :=
  ⟨rfl, rfl, rfl, (claim_C3 envC rfl rfl rfl).2.2.1⟩

/-- Claim C8: for every environment the script either completes normally or
aborts via an assertion failure; in particular the explicit
`exit("Exiting due to setup failure for Test Case 3.1")` branch is
unreachable, because the assertion just before it already guarantees one of
the two handled setup outcomes. -/
theorem claim_C8 (env : ScriptEnv) :
    ((runScript env).2 = Except.ok () ∨ isAssertFailRes ((runScript env).2) = true) ∧
    isExitRes ((runScript env).2) = false := by
  obtain ⟨_, hok, _, _, _⟩ := runScript_char env
  refine ⟨hok, ?_⟩
  rcases hok with h | h
  · rw [h]
    rfl
  · obtain ⟨m, hm⟩ := isAssertFailRes_exists _ h
    rw [hm]
    rfl
